import Mathlib

/-!
Verification development for the LogAI identity/authentication web
application.  The data model and the operations below are shallow
embeddings of the TypeScript sources: the users table rows become a
record type, database state is a list of rows passed explicitly, and
the external libraries (bcrypt password comparison, speakeasy TOTP
verification, the Redis-backed rate limiter) are abstract boolean-valued
parameters.  Side effects (database reads and writes, audit-log inserts,
rate-limiter consumption) are recorded as an explicit event trace.
Timestamp-valued fields (createdAt, updatedAt, lastLoginAt) are outside
the model; no claim concerns them.
-/

namespace LogAI

/-! ## Data model: rows of the users table (src/lib/db/schema.ts) -/

structure User where
  id : String
  email : String
  name : Option String := none
  role : String := "user"
  image : Option String := none
  passwordHash : Option String := none
  isActive : Bool := true
  isLocked : Bool := false
  lockReason : Option String := none
  loginAttempts : Nat := 0
  lastLoginIp : Option String := none
  mfaEnabled : Bool := false
  mfaSecret : Option String := none
  mfaBackupCodes : Option (List String) := none
deriving Repr, DecidableEq

/-- Credentials supplied to the credentials provider (src/lib/auth.ts). -/
structure Credentials where
  email : String
  password : String
  mfaCode : Option String := none
deriving Repr, DecidableEq

/-- One audit-log entry as written by auditLogger.log (src/lib/audit.ts). -/
structure AuditEntry where
  userId : Option String
  action : String
  success : Bool
  errorMessage : Option String
deriving Repr, DecidableEq

/-- Observable effects of the authorize callback, in program order. -/
inductive AuthEvent where
  | rateLimitConsume (keyPrefix : String) (key : String)
  | dbSelectUser (email : String)
  | dbUpdateUser (id : String)
  | passwordCheck (userId : String)
  | totpCheck (userId : String) (window : Nat)
  | audit (entry : AuditEntry)
deriving Repr, DecidableEq

/-- The user object returned by authorize on success. -/
structure SessionUser where
  id : String
  email : String
  name : Option String
  role : String
  image : Option String
  mfaEnabled : Bool
deriving Repr, DecidableEq

/-- Result of the authorize callback: a user object, null, or a thrown
error message. -/
inductive AuthResult where
  | ok (u : SessionUser)
  | nullResult
  | thrown (msg : String)
deriving Repr, DecidableEq

/-! ## Rate limiter configurations (src/lib/rate-limiter.ts) -/

structure RateLimiterConfig where
  keyPrefix : String
  points : Nat
  duration : Nat
  blockDuration : Nat
deriving Repr, DecidableEq

/-- Login rate limiter: 5 attempts per 15 minutes per IP. -/
def rateLimiter : RateLimiterConfig :=
  { keyPrefix := "login_rate_limit", points := 5,
    duration := 15 * 60, blockDuration := 15 * 60 }

/-- API rate limiter: 1000 requests per hour per IP. -/
def apiRateLimiter : RateLimiterConfig :=
  { keyPrefix := "api_rate_limit", points := 1000,
    duration := 60 * 60, blockDuration := 60 * 60 }

/-- Registration rate limiter: 3 registrations per hour per IP. -/
def registrationRateLimiter : RateLimiterConfig :=
  { keyPrefix := "registration_rate_limit", points := 3,
    duration := 60 * 60, blockDuration := 60 * 60 }

/-- Password reset rate limiter: 3 attempts per hour per email. -/
def passwordResetRateLimiter : RateLimiterConfig :=
  { keyPrefix := "password_reset_rate_limit", points := 3,
    duration := 60 * 60, blockDuration := 60 * 60 }

/-- MFA rate limiter: 10 attempts per 5 minutes per user. -/
def mfaRateLimiter : RateLimiterConfig :=
  { keyPrefix := "mfa_rate_limit", points := 10,
    duration := 5 * 60, blockDuration := 15 * 60 }

/-! ## Database primitives -/

/-- Lowercasing of the e-mail (toLowerCase in the source), written
structurally over the character list so concrete runs reduce. -/
def lowercase (s : String) : String := ⟨s.data.map Char.toLower⟩

/-- SELECT of the user row by e-mail (first match), as in the drizzle
select with eq on users.email. -/
def findUserByEmail (db : List User) (email : String) : Option User :=
  db.find? (fun u => u.email == email)

/-- SELECT of the user row by id (first match). -/
def findUserById (db : List User) (id : String) : Option User :=
  db.find? (fun u => u.id == id)

/-- UPDATE of the users table WHERE id matches: applies the field update
to every row with the given id. -/
def updateUser (db : List User) (id : String) (f : User → User) : List User :=
  db.map (fun u => if u.id == id then f u else u)

/-- Password verification step of authorize: false when the stored hash
is null (short-circuit), otherwise the bcrypt comparison. -/
def passwordMatches (compare : String → String → Bool)
    (password : String) (u : User) : Bool :=
  match u.passwordHash with
  | none => false
  | some h => compare password h

/-! ## The credentials authorize callback (src/lib/auth.ts, lines 35-182)

Parameters model the external libraries:
compare is bcrypt.compare, totpVerify is the speakeasy TOTP verify
(token, base32 secret, window), and consume is the outcome of
RateLimiterRedis.consume for a given limiter configuration and key
(true when points remain, false when the consumption is rejected). -/

structure AuthOutcome where
  result : AuthResult
  db : List User
  events : List AuthEvent
deriving Repr, DecidableEq

def authorize (compare : String → String → Bool)
    (totpVerify : String → String → Nat → Bool)
    (consume : RateLimiterConfig → String → Bool)
    (clientIp : String) (creds : Credentials) (db : List User) : AuthOutcome :=
  if creds.email.isEmpty || creds.password.isEmpty then
    { result := .nullResult, db := db, events := [] }
  else
    let e0 : List AuthEvent := [.rateLimitConsume rateLimiter.keyPrefix clientIp]
    if !consume rateLimiter clientIp then
      { result := .thrown "Too many login attempts. Please try again later.",
        db := db,
        events := e0 ++
          [.audit ⟨none, "login", false, some "Rate limit exceeded"⟩] }
    else
      let e1 := e0 ++ [.dbSelectUser (lowercase creds.email)]
      match findUserByEmail db (lowercase creds.email) with
      | none =>
        { result := .nullResult, db := db,
          events := e1 ++
            [.audit ⟨none, "login", false, some "User not found"⟩] }
      | some user =>
        if user.isLocked then
          { result := .thrown "Account is locked. Please contact support.",
            db := db,
            events := e1 ++
              [.audit ⟨some user.id, "login", false, some "Account locked"⟩] }
        else if !user.isActive then
          { result := .thrown "Account is inactive. Please contact support.",
            db := db,
            events := e1 ++
              [.audit ⟨some user.id, "login", false, some "Account inactive"⟩] }
        else
          -- bcrypt.compare runs only when passwordHash is non-null
          let e2 := if user.passwordHash.isSome
            then e1 ++ [.passwordCheck user.id] else e1
          if !passwordMatches compare creds.password user then
            { result := .nullResult,
              db := updateUser db user.id (fun w =>
                { w with
                  loginAttempts := user.loginAttempts + 1,
                  isLocked := decide (user.loginAttempts + 1 ≥ 5),
                  lockReason := if user.loginAttempts + 1 ≥ 5
                    then some "Too many failed login attempts" else none }),
              events := e2 ++
                [.dbUpdateUser user.id,
                 .audit ⟨some user.id, "login", false, some "Invalid password"⟩] }
          else
            let finish (ev : List AuthEvent) : AuthOutcome :=
              { result := .ok ⟨user.id, user.email, user.name, user.role,
                               user.image, user.mfaEnabled⟩,
                db := updateUser db user.id (fun w =>
                  { w with loginAttempts := 0, lastLoginIp := some clientIp }),
                events := ev ++
                  [.dbUpdateUser user.id,
                   .audit ⟨some user.id, "login", true, none⟩] }
            if user.mfaEnabled then
              -- a missing or empty mfaCode is falsy in the source
              match creds.mfaCode with
              | none => { result := .nullResult, db := db, events := e2 }
              | some code =>
                if code.isEmpty then
                  { result := .nullResult, db := db, events := e2 }
                else
                  let e3 := e2 ++ [.totpCheck user.id 2]
                  if !totpVerify code (user.mfaSecret.getD "") 2 then
                    { result := .nullResult, db := db,
                      events := e3 ++
                        [.audit ⟨some user.id, "login", false,
                                 some "Invalid MFA code"⟩] }
                  else
                    finish e3
            else
              finish e2

/-! ## MFA service (src/lib/mfa.ts)

The speakeasy TOTP verification is again an abstract parameter
verifyTok (token, base32 secret, window); MFAService.verifyToken passes
a default window of 2. -/

/-- Result object of the MFAService operations. -/
structure MFAResult where
  success : Bool
  error : Option String := none
deriving Repr, DecidableEq

/-- Observable effects of the MFA service operations. -/
inductive MFAEvent where
  | dbSelectUser (id : String)
  | dbUpdateUser (id : String)
  | audit (entry : AuditEntry)
deriving Repr, DecidableEq

/-- MFAService.disableMFA: look the user up, refuse unless MFA is
enabled with a stored secret, verify the token (window 2), then clear
mfaEnabled, mfaSecret and mfaBackupCodes in one update. -/
def disableMFA (verifyTok : String → String → Nat → Bool)
    (db : List User) (userId token : String) :
    MFAResult × List User × List MFAEvent :=
  let e1 : List MFAEvent := [.dbSelectUser userId]
  match findUserById db userId with
  | none => (⟨false, some "MFA is not enabled for this user"⟩, db, e1)
  | some user =>
    if !user.mfaEnabled then
      (⟨false, some "MFA is not enabled for this user"⟩, db, e1)
    else match user.mfaSecret with
    | none => (⟨false, some "MFA is not enabled for this user"⟩, db, e1)
    | some secret =>
      if !verifyTok token secret 2 then
        (⟨false, some "Invalid MFA token"⟩, db,
         e1 ++ [.audit ⟨some userId, "mfa_disable", false,
                        some "Invalid MFA token"⟩])
      else
        (⟨true, none⟩,
         updateUser db userId (fun w =>
           { w with mfaEnabled := false, mfaSecret := none,
                    mfaBackupCodes := none }),
         e1 ++ [.dbUpdateUser userId,
                .audit ⟨some userId, "mfa_disable", true, none⟩])

/-- MFAService.verifyBackupCode: look the user up, refuse unless MFA is
enabled with stored backup codes, find the code by indexOf, splice out
the single occurrence at that index, and persist the shortened array. -/
def verifyBackupCode (db : List User) (userId code : String) :
    MFAResult × List User × List MFAEvent :=
  let e1 : List MFAEvent := [.dbSelectUser userId]
  match findUserById db userId with
  | none => (⟨false, some "Invalid backup code"⟩, db, e1)
  | some user =>
    if !user.mfaEnabled then
      (⟨false, some "Invalid backup code"⟩, db, e1)
    else match user.mfaBackupCodes with
    | none => (⟨false, some "Invalid backup code"⟩, db, e1)
    | some backupCodes =>
      match backupCodes.indexOf? code with
      | none =>
        (⟨false, some "Invalid backup code"⟩, db,
         e1 ++ [.audit ⟨some userId, "login", false,
                        some "Invalid backup code"⟩])
      | some codeIndex =>
        (⟨true, none⟩,
         updateUser db userId (fun w =>
           { w with mfaBackupCodes := some (backupCodes.eraseIdx codeIndex) }),
         e1 ++ [.dbUpdateUser userId,
                .audit ⟨some userId, "login", true, none⟩])

/-! ## Admin user-action handler (src/app/api/admin/users route) -/

/-- A JSON response from an API handler: HTTP status plus either a
message or an error string. -/
structure ApiResponse where
  status : Nat
  message : Option String := none
  error : Option String := none
deriving Repr, DecidableEq

/-- Observable effects of the admin user-action handler. -/
inductive AdminEvent where
  | dbSelectUser (id : String)
  | dbUpdateUser (id : String)
  | audit (entry : AuditEntry)
deriving Repr, DecidableEq

/-- handleUserAction: reject self-modification before any database
access, look the target up, apply the activate / deactivate / lock /
unlock update, or 400 on an unknown action. -/
def handleUserAction (db : List User) (tokenUserId userId action : String) :
    ApiResponse × List User × List AdminEvent :=
  if userId == tokenUserId then
    (⟨400, none, some "Cannot modify your own account status"⟩, db, [])
  else
    let e1 : List AdminEvent := [.dbSelectUser userId]
    match findUserById db userId with
    | none => (⟨404, none, some "User not found"⟩, db, e1)
    | some _ =>
      let updateData : Option (User → User) :=
        if action == "activate" then
          some (fun u => { u with isActive := true })
        else if action == "deactivate" then
          some (fun u => { u with isActive := false })
        else if action == "lock" then
          some (fun u =>
            { u with
              isLocked := true,
              lockReason := some "Locked by administrator" })
        else if action == "unlock" then
          some (fun u =>
            { u with
              isLocked := false,
              lockReason := none,
              loginAttempts := 0 })
        else none
      match updateData with
      | none => (⟨400, none, some "Invalid action"⟩, db, e1)
      | some f =>
        (⟨200, some ("User " ++ action ++ "d successfully"), none⟩,
         updateUser db userId f,
         e1 ++ [.dbUpdateUser userId,
                .audit ⟨some tokenUserId, "admin_action", true, none⟩])

/-! ## Health check endpoint (src/app/api/health/route.ts)

The database execute and the Redis ping are modelled as Except values:
ok carries the reply, error models a thrown exception.  internalError
models an exception thrown inside the try block of the handler itself. -/

/-- checkDatabase: true exactly when the SELECT 1 execute succeeds. -/
def checkDatabase (dbExec : Except String Unit) : Bool :=
  match dbExec with
  | .ok _ => true
  | .error _ => false

/-- checkRedis: true exactly when the ping succeeds with reply PONG. -/
def checkRedis (ping : Except String String) : Bool :=
  match ping with
  | .ok r => r == "PONG"
  | .error _ => false

/-- Body of the health response: overall status plus the per-service
states, or an error field when the handler itself threw. -/
structure HealthBody where
  status : String
  database : Option String := none
  redis : Option String := none
  error : Option String := none
deriving Repr, DecidableEq

/-- The health handler: 200 when both services are healthy, 503
otherwise, and 503 with an error body when the handler throws. -/
def healthHandler (dbExec : Except String Unit) (ping : Except String String)
    (internalError : Option String) : Nat × HealthBody :=
  match internalError with
  | some _ => (503, ⟨"error", none, none, some "Health check failed"⟩)
  | none =>
    let dbHealthy := checkDatabase dbExec
    let redisHealthy := checkRedis ping
    let body : HealthBody :=
      ⟨"healthy",
       some (if dbHealthy then "healthy" else "unhealthy"),
       some (if redisHealthy then "healthy" else "unhealthy"),
       none⟩
    (if dbHealthy && redisHealthy then 200 else 503, body)

/-! ## Declared schema constraints (src/lib/db/schema.ts)

Every constraint declared in the drizzle schema, transcribed table by
table.  primaryKey, unique and uniqueIndex are uniqueness constraints;
foreignKey is a references(...) clause; notNull is a NOT NULL clause;
enumDomain is a pgEnum-typed column (the engine restricts stored values
to the enum); columnDefault is a default(...) clause; plainIndex is a
non-unique index (an access path, not a constraint on stored data). -/

inductive ConstraintKind where
  | primaryKey
  | unique
  | uniqueIndex
  | foreignKey
  | notNull
  | enumDomain
  | columnDefault
  | plainIndex
deriving Repr, DecidableEq

structure DeclaredConstraint where
  table : String
  column : String
  kind : ConstraintKind
deriving Repr, DecidableEq

def usersConstraints : List DeclaredConstraint := [
  ⟨"users", "id", .primaryKey⟩, ⟨"users", "id", .columnDefault⟩,
  ⟨"users", "email", .notNull⟩, ⟨"users", "email", .unique⟩,
  ⟨"users", "role", .enumDomain⟩, ⟨"users", "role", .columnDefault⟩,
  ⟨"users", "role", .notNull⟩,
  ⟨"users", "is_active", .columnDefault⟩, ⟨"users", "is_active", .notNull⟩,
  ⟨"users", "is_locked", .columnDefault⟩, ⟨"users", "is_locked", .notNull⟩,
  ⟨"users", "login_attempts", .columnDefault⟩,
  ⟨"users", "login_attempts", .notNull⟩,
  ⟨"users", "mfa_enabled", .columnDefault⟩, ⟨"users", "mfa_enabled", .notNull⟩,
  ⟨"users", "timezone", .columnDefault⟩, ⟨"users", "locale", .columnDefault⟩,
  ⟨"users", "created_at", .columnDefault⟩, ⟨"users", "created_at", .notNull⟩,
  ⟨"users", "updated_at", .columnDefault⟩, ⟨"users", "updated_at", .notNull⟩,
  ⟨"users", "email", .plainIndex⟩, ⟨"users", "role", .plainIndex⟩,
  ⟨"users", "is_active", .plainIndex⟩]

def accountsConstraints : List DeclaredConstraint := [
  ⟨"accounts", "user_id", .notNull⟩, ⟨"accounts", "user_id", .foreignKey⟩,
  ⟨"accounts", "type", .notNull⟩, ⟨"accounts", "provider", .notNull⟩,
  ⟨"accounts", "provider_account_id", .notNull⟩,
  ⟨"accounts", "created_at", .columnDefault⟩,
  ⟨"accounts", "created_at", .notNull⟩,
  ⟨"accounts", "updated_at", .columnDefault⟩,
  ⟨"accounts", "updated_at", .notNull⟩,
  ⟨"accounts", "provider,provider_account_id", .uniqueIndex⟩,
  ⟨"accounts", "user_id", .plainIndex⟩]

def sessionsConstraints : List DeclaredConstraint := [
  ⟨"sessions", "session_token", .notNull⟩,
  ⟨"sessions", "session_token", .primaryKey⟩,
  ⟨"sessions", "user_id", .notNull⟩, ⟨"sessions", "user_id", .foreignKey⟩,
  ⟨"sessions", "expires", .notNull⟩,
  ⟨"sessions", "status", .enumDomain⟩, ⟨"sessions", "status", .columnDefault⟩,
  ⟨"sessions", "status", .notNull⟩,
  ⟨"sessions", "is_secure", .columnDefault⟩,
  ⟨"sessions", "is_secure", .notNull⟩,
  ⟨"sessions", "last_activity", .columnDefault⟩,
  ⟨"sessions", "last_activity", .notNull⟩,
  ⟨"sessions", "created_at", .columnDefault⟩,
  ⟨"sessions", "created_at", .notNull⟩,
  ⟨"sessions", "user_id", .plainIndex⟩, ⟨"sessions", "status", .plainIndex⟩,
  ⟨"sessions", "expires", .plainIndex⟩]

def verificationTokensConstraints : List DeclaredConstraint := [
  ⟨"verification_tokens", "identifier", .notNull⟩,
  ⟨"verification_tokens", "token", .notNull⟩,
  ⟨"verification_tokens", "expires", .notNull⟩,
  ⟨"verification_tokens", "type", .columnDefault⟩,
  ⟨"verification_tokens", "type", .notNull⟩,
  ⟨"verification_tokens", "created_at", .columnDefault⟩,
  ⟨"verification_tokens", "created_at", .notNull⟩,
  ⟨"verification_tokens", "identifier,token", .uniqueIndex⟩]

def permissionsConstraints : List DeclaredConstraint := [
  ⟨"permissions", "id", .primaryKey⟩, ⟨"permissions", "id", .columnDefault⟩,
  ⟨"permissions", "name", .notNull⟩, ⟨"permissions", "name", .unique⟩,
  ⟨"permissions", "resource", .notNull⟩, ⟨"permissions", "action", .notNull⟩,
  ⟨"permissions", "created_at", .columnDefault⟩,
  ⟨"permissions", "created_at", .notNull⟩,
  ⟨"permissions", "name", .uniqueIndex⟩,
  ⟨"permissions", "resource,action", .plainIndex⟩]

def rolePermissionsConstraints : List DeclaredConstraint := [
  ⟨"role_permissions", "id", .primaryKey⟩,
  ⟨"role_permissions", "id", .columnDefault⟩,
  ⟨"role_permissions", "role", .enumDomain⟩,
  ⟨"role_permissions", "role", .notNull⟩,
  ⟨"role_permissions", "permission_id", .notNull⟩,
  ⟨"role_permissions", "permission_id", .foreignKey⟩,
  ⟨"role_permissions", "created_at", .columnDefault⟩,
  ⟨"role_permissions", "created_at", .notNull⟩,
  ⟨"role_permissions", "role,permission_id", .uniqueIndex⟩]

def userPermissionsConstraints : List DeclaredConstraint := [
  ⟨"user_permissions", "id", .primaryKey⟩,
  ⟨"user_permissions", "id", .columnDefault⟩,
  ⟨"user_permissions", "user_id", .notNull⟩,
  ⟨"user_permissions", "user_id", .foreignKey⟩,
  ⟨"user_permissions", "permission_id", .notNull⟩,
  ⟨"user_permissions", "permission_id", .foreignKey⟩,
  ⟨"user_permissions", "granted", .columnDefault⟩,
  ⟨"user_permissions", "granted", .notNull⟩,
  ⟨"user_permissions", "granted_by", .foreignKey⟩,
  ⟨"user_permissions", "created_at", .columnDefault⟩,
  ⟨"user_permissions", "created_at", .notNull⟩,
  ⟨"user_permissions", "user_id,permission_id", .uniqueIndex⟩]

def auditLogsConstraints : List DeclaredConstraint := [
  ⟨"audit_logs", "id", .primaryKey⟩, ⟨"audit_logs", "id", .columnDefault⟩,
  ⟨"audit_logs", "user_id", .foreignKey⟩,
  ⟨"audit_logs", "action", .enumDomain⟩, ⟨"audit_logs", "action", .notNull⟩,
  ⟨"audit_logs", "success", .columnDefault⟩,
  ⟨"audit_logs", "success", .notNull⟩,
  ⟨"audit_logs", "created_at", .columnDefault⟩,
  ⟨"audit_logs", "created_at", .notNull⟩,
  ⟨"audit_logs", "user_id", .plainIndex⟩,
  ⟨"audit_logs", "action", .plainIndex⟩,
  ⟨"audit_logs", "created_at", .plainIndex⟩,
  ⟨"audit_logs", "resource", .plainIndex⟩]

def apiKeysConstraints : List DeclaredConstraint := [
  ⟨"api_keys", "id", .primaryKey⟩, ⟨"api_keys", "id", .columnDefault⟩,
  ⟨"api_keys", "name", .notNull⟩, ⟨"api_keys", "key_hash", .notNull⟩,
  ⟨"api_keys", "user_id", .notNull⟩, ⟨"api_keys", "user_id", .foreignKey⟩,
  ⟨"api_keys", "is_active", .columnDefault⟩,
  ⟨"api_keys", "is_active", .notNull⟩,
  ⟨"api_keys", "rate_limit", .columnDefault⟩,
  ⟨"api_keys", "rate_limit", .notNull⟩,
  ⟨"api_keys", "created_at", .columnDefault⟩,
  ⟨"api_keys", "created_at", .notNull⟩,
  ⟨"api_keys", "updated_at", .columnDefault⟩,
  ⟨"api_keys", "updated_at", .notNull⟩,
  ⟨"api_keys", "user_id", .plainIndex⟩,
  ⟨"api_keys", "is_active", .plainIndex⟩]

def schemaConstraints : List DeclaredConstraint :=
  usersConstraints ++ accountsConstraints ++ sessionsConstraints ++
  verificationTokensConstraints ++ permissionsConstraints ++
  rolePermissionsConstraints ++ userPermissionsConstraints ++
  auditLogsConstraints ++ apiKeysConstraints

/-- A uniqueness constraint: primary key, unique column, or unique
index. -/
def ConstraintKind.isUniqueness : ConstraintKind → Bool
  | .primaryKey | .unique | .uniqueIndex => true
  | _ => false

/-- A foreign-key referential-integrity constraint. -/
def ConstraintKind.isForeignKey : ConstraintKind → Bool
  | .foreignKey => true
  | _ => false

/-- Whether the declaration restricts what data may be stored: default
values and non-unique indexes do not, everything else does. -/
def ConstraintKind.encodesInvariant : ConstraintKind → Bool
  | .columnDefault | .plainIndex => false
  | _ => true

/-! ## Redis cache operations (src/lib/rate-limiter.ts and callers)

Every place in the program that performs an operation against the Redis
client, with the rate-limiter key prefix it operates under.  The
limiter argument of the checkRateLimit, getRateLimitInfo and
resetRateLimit helpers is instantiated at their call sites; the helper
rows with a parametric limiter record the prefixes of the limiter
instances that exist in the program. -/

inductive RedisOpKind where
  | limiterConsume
  | limiterGet
  | limiterDelete
  | ping
  | connect
deriving Repr, DecidableEq

structure RedisUse where
  site : String
  kind : RedisOpKind
  keyPrefix : Option String
deriving Repr, DecidableEq

/-- True for operations that read or write data stored in the cache;
ping and connect exchange no stored data. -/
def RedisOpKind.accessesStoredData : RedisOpKind → Bool
  | .limiterConsume | .limiterGet | .limiterDelete => true
  | .ping | .connect => false

/-- The key prefixes of the five rate limiter instances. -/
def rateLimitKeyPrefixes : List String :=
  [rateLimiter.keyPrefix, apiRateLimiter.keyPrefix,
   registrationRateLimiter.keyPrefix, passwordResetRateLimiter.keyPrefix,
   mfaRateLimiter.keyPrefix]

def redisUses : List RedisUse := [
  ⟨"lib/rate-limiter.ts ensureConnection redisClient.connect",
   .connect, none⟩,
  ⟨"lib/auth.ts authorize rateLimiter.consume(clientIp)",
   .limiterConsume, some rateLimiter.keyPrefix⟩,
  ⟨"lib/security.ts withRateLimit checkRateLimit(apiRateLimiter)",
   .limiterConsume, some apiRateLimiter.keyPrefix⟩,
  ⟨"app/api/auth/register handler checkRateLimit(registrationRateLimiter)",
   .limiterConsume, some registrationRateLimiter.keyPrefix⟩,
  ⟨"lib/rate-limiter.ts getRateLimitInfo limiter.get(key)",
   .limiterGet, some rateLimiter.keyPrefix⟩,
  ⟨"lib/rate-limiter.ts getRateLimitInfo limiter.get(key)",
   .limiterGet, some apiRateLimiter.keyPrefix⟩,
  ⟨"lib/rate-limiter.ts getRateLimitInfo limiter.get(key)",
   .limiterGet, some registrationRateLimiter.keyPrefix⟩,
  ⟨"lib/rate-limiter.ts getRateLimitInfo limiter.get(key)",
   .limiterGet, some passwordResetRateLimiter.keyPrefix⟩,
  ⟨"lib/rate-limiter.ts getRateLimitInfo limiter.get(key)",
   .limiterGet, some mfaRateLimiter.keyPrefix⟩,
  ⟨"lib/rate-limiter.ts resetRateLimit limiter.delete(key)",
   .limiterDelete, some rateLimiter.keyPrefix⟩,
  ⟨"lib/rate-limiter.ts resetRateLimit limiter.delete(key)",
   .limiterDelete, some apiRateLimiter.keyPrefix⟩,
  ⟨"lib/rate-limiter.ts resetRateLimit limiter.delete(key)",
   .limiterDelete, some registrationRateLimiter.keyPrefix⟩,
  ⟨"lib/rate-limiter.ts resetRateLimit limiter.delete(key)",
   .limiterDelete, some passwordResetRateLimiter.keyPrefix⟩,
  ⟨"lib/rate-limiter.ts resetRateLimit limiter.delete(key)",
   .limiterDelete, some mfaRateLimiter.keyPrefix⟩,
  ⟨"app/api/health/route.ts checkRedis redisClient.ping()",
   .ping, none⟩]

/-! ## API error responses (all request handlers under src/app/api and
src/lib/security.ts)

Every NextResponse built with an HTTP error status in the request
handlers and the middleware, with its error message and whether a
details payload (a list of validation message strings) accompanies
it. -/

structure ApiErrorResponse where
  route : String
  status : Nat
  message : String
  hasDetails : Bool := false
deriving Repr, DecidableEq

def middlewareErrorResponses : List ApiErrorResponse := [
  ⟨"lib/security.ts withRateLimit", 429, "Rate limit exceeded", false⟩,
  ⟨"lib/security.ts withAuth", 401, "Authentication required", false⟩,
  ⟨"lib/security.ts withAuth", 403, "Insufficient permissions", false⟩,
  ⟨"lib/security.ts withAuth", 500, "Authentication failed", false⟩,
  ⟨"api/health GET", 503, "Health check failed", false⟩]

def registrationErrorResponses : List ApiErrorResponse := [
  ⟨"api/auth/register POST", 429,
   "Too many registration attempts. Please try again later.", false⟩,
  ⟨"api/auth/register POST", 400, "Validation failed", true⟩,
  ⟨"api/auth/register POST", 400,
   "Password does not meet requirements", true⟩,
  ⟨"api/auth/register POST", 409,
   "An account with this email already exists", false⟩,
  ⟨"api/auth/register POST", 500,
   "Registration failed. Please try again.", false⟩]

def mfaErrorResponses : List ApiErrorResponse := [
  ⟨"api/mfa/generate-secret GET", 404, "User not found", false⟩,
  ⟨"api/mfa/generate-secret GET", 500, "Failed to generate MFA secret",
   false⟩,
  ⟨"api/mfa/enable POST", 400, "Invalid token format", false⟩,
  ⟨"api/mfa/enable POST", 400, "MFA secret is required", false⟩,
  ⟨"api/mfa/enable POST", 400, "Invalid MFA token", false⟩,
  ⟨"api/mfa/enable POST", 500, "Failed to enable MFA", false⟩,
  ⟨"api/mfa/disable POST", 400, "Invalid token format", false⟩,
  ⟨"api/mfa/disable POST", 400, "MFA is not enabled for this user", false⟩,
  ⟨"api/mfa/disable POST", 400, "Invalid MFA token", false⟩,
  ⟨"api/mfa/disable POST", 500, "Failed to disable MFA", false⟩,
  ⟨"api/mfa/status GET", 404, "Failed to get MFA status", false⟩,
  ⟨"api/mfa/status GET", 500, "Failed to get MFA status", false⟩]

def mfaBackupErrorResponses : List ApiErrorResponse := [
  ⟨"api/mfa/regenerate-backup-codes POST", 400, "Invalid token format",
   false⟩,
  ⟨"api/mfa/regenerate-backup-codes POST", 400,
   "MFA is not enabled for this user", false⟩,
  ⟨"api/mfa/regenerate-backup-codes POST", 400, "Invalid MFA token", false⟩,
  ⟨"api/mfa/regenerate-backup-codes POST", 500,
   "Failed to regenerate backup codes", false⟩,
  ⟨"api/mfa/[action] GET", 400, "Invalid action", false⟩,
  ⟨"api/mfa/[action] POST", 400, "Invalid action", false⟩]

def adminErrorResponses : List ApiErrorResponse := [
  ⟨"api/admin/users GET", 500, "Failed to fetch users", false⟩,
  ⟨"api/admin/users action POST", 400,
   "Cannot modify your own account status", false⟩,
  ⟨"api/admin/users action POST", 404, "User not found", false⟩,
  ⟨"api/admin/users action POST", 400, "Invalid action", false⟩,
  ⟨"api/admin/users action POST", 500, "Failed to lock user", false⟩,
  ⟨"api/admin/audit-stats GET", 500, "Failed to fetch audit statistics",
   false⟩]

def profileErrorResponses : List ApiErrorResponse := [
  ⟨"api/profile GET", 401, "Unauthorized", false⟩,
  ⟨"api/profile GET", 404, "User not found", false⟩,
  ⟨"api/profile GET", 500, "Internal server error", false⟩,
  ⟨"api/profile PATCH", 401, "Unauthorized", false⟩,
  ⟨"api/profile PATCH", 400, "Email address is already in use", false⟩,
  ⟨"api/profile PATCH", 500, "Failed to update profile", false⟩,
  ⟨"api/profile PATCH", 400, "Invalid input", true⟩,
  ⟨"api/profile PATCH", 500, "Internal server error", false⟩]

def apiErrorResponses : List ApiErrorResponse :=
  middlewareErrorResponses ++ registrationErrorResponses ++
  mfaErrorResponses ++ mfaBackupErrorResponses ++
  adminErrorResponses ++ profileErrorResponses

/-- The HTTP error status codes the spec names. -/
def specErrorStatuses : List Nat := [400, 401, 403, 404, 409, 429, 500, 503]

/-! ## Theorems -/

/-- C4 counterexample: the claim that every declared constraint is a
foreign-key reference or a uniqueness constraint fails on the users
table, whose email column declares a NOT NULL constraint: NOT NULL is an
invariant on stored data and is neither a foreign key nor a uniqueness
constraint. -/
theorem schema_has_notnull_constraint :
    (⟨"users", "email", ConstraintKind.notNull⟩ : DeclaredConstraint)
      ∈ schemaConstraints
    ∧ ConstraintKind.notNull.encodesInvariant = true
    ∧ ConstraintKind.notNull.isForeignKey = false
    ∧ ConstraintKind.notNull.isUniqueness = false := by
  refine ⟨?_, rfl, rfl, rfl⟩
  simp [schemaConstraints, usersConstraints]

/-- C4 amended: every constraint declared in the schema that encodes an
invariant on stored data is a foreign-key reference, a uniqueness
constraint (primary key, unique column, or unique index), a NOT NULL
constraint, or an enum value-domain restriction; column defaults and
non-unique indexes encode no invariant on stored data. -/
theorem schema_constraints_classified :
    (schemaConstraints.all (fun c =>
      !c.kind.encodesInvariant
      || (c.kind.isForeignKey || c.kind.isUniqueness
          || c.kind == ConstraintKind.notNull
          || c.kind == ConstraintKind.enumDomain))) = true := by
  decide

/-- C5: every error response produced by the API request handlers and
the security middleware carries one of the HTTP error status codes 400,
401, 403, 404, 409, 429, 500, 503 and a non-empty message string; the
only additional payload ever attached is a details list of validation
message strings. -/
theorem api_errors_are_conventional :
    (apiErrorResponses.all (fun r =>
      specErrorStatuses.contains r.status && !(r.message == ""))) = true
    ∧ (apiErrorResponses.all (fun r =>
        !r.hasDetails
        || (r.message == "Validation failed"
            || r.message == "Password does not meet requirements"
            || r.message == "Invalid input"))) = true := by
  constructor <;> decide

/-- C7: every Redis operation in the program that reads or writes data
stored in the cache is a rate-limiter operation (consume, get or delete)
keyed under the prefix of one of the five rate-limiter instances; the
only non-limiter operations on the Redis client are connect and the
health-check ping, which access no stored data. -/
theorem cache_used_only_for_rate_limit_counters :
    (redisUses.all (fun u =>
      !u.kind.accessesStoredData
      || (match u.keyPrefix with
          | some p => rateLimitKeyPrefixes.contains p
          | none => false))) = true
    ∧ (redisUses.all (fun u =>
        u.kind.accessesStoredData
        || (u.kind == RedisOpKind.ping || u.kind == RedisOpKind.connect)))
      = true := by
  constructor <;> decide

/-- C6: the health endpoint returns HTTP 200 exactly when the database
SELECT 1 succeeds and the Redis ping replies PONG and the handler does
not throw; in every other case it returns 503; when the handler does not
throw, the body reports the per-service healthy / unhealthy states. -/
theorem healthHandler_status_correct (dbExec : Except String Unit)
    (ping : Except String String) (internalError : Option String) :
    ((healthHandler dbExec ping internalError).1 = 200 ↔
      internalError = none ∧ checkDatabase dbExec = true
        ∧ checkRedis ping = true)
    ∧ (checkDatabase dbExec = true ↔ dbExec = Except.ok ())
    ∧ (checkRedis ping = true ↔ ping = Except.ok "PONG")
    ∧ ((healthHandler dbExec ping internalError).1 = 200
        ∨ (healthHandler dbExec ping internalError).1 = 503)
    ∧ (internalError = none →
        (healthHandler dbExec ping internalError).2.database
          = some (if checkDatabase dbExec then "healthy" else "unhealthy")
        ∧ (healthHandler dbExec ping internalError).2.redis
          = some (if checkRedis ping then "healthy" else "unhealthy"))
    ∧ (∀ e, internalError = some e →
        (healthHandler dbExec ping internalError).1 = 503
        ∧ (healthHandler dbExec ping internalError).2
            = ⟨"error", none, none, some "Health check failed"⟩) := by
  refine ⟨?_, ?_, ?_, ?_, ?_, ?_⟩
  · cases internalError with
    | some e => simp [healthHandler]
    | none =>
      cases hdb : checkDatabase dbExec <;>
        cases hr : checkRedis ping <;>
          simp [healthHandler, hdb, hr]
  · cases dbExec with
    | ok u => cases u; simp [checkDatabase]
    | error e => simp [checkDatabase]
  · cases ping with
    | ok r =>
      simp only [checkRedis, beq_iff_eq]
      constructor
      · intro h
        exact congrArg Except.ok h
      · intro h
        cases h
        rfl
    | error e => simp [checkRedis]
  · cases internalError with
    | some e => simp [healthHandler]
    | none =>
      cases hdb : checkDatabase dbExec <;>
        cases hr : checkRedis ping <;>
          simp [healthHandler, hdb, hr]
  · intro h
    cases h
    cases hdb : checkDatabase dbExec <;>
      cases hr : checkRedis ping <;>
        simp [healthHandler, hdb, hr]
  · intro e h
    cases h
    simp [healthHandler]

/-- C6 witness: concrete evaluation of the health handler at healthy
inputs and at a throwing handler. -/
theorem healthHandler_status_correct_witness :
    (healthHandler (Except.ok ()) (Except.ok "PONG") none).1 = 200
    ∧ (healthHandler (Except.ok ()) (Except.ok "PONG")
        (some "boom")).1 = 503 := by
  have h1 := healthHandler_status_correct (Except.ok ())
    (Except.ok "PONG") none
  have h2 := healthHandler_status_correct (Except.ok ())
    (Except.ok "PONG") (some "boom")
  exact ⟨h1.1.mpr ⟨rfl, by decide, by decide⟩, (h2.2.2.2.2.2 "boom" rfl).1⟩

/-- C10: when the target user id of an admin user-action request equals
the requester id, the handler answers 400 with the message that the
admin cannot modify their own account status, reads no user row, writes
no user row, and leaves the database unchanged, whatever the action. -/
theorem handleUserAction_self_guard (db : List User)
    (tokenUserId userId action : String) (h : userId = tokenUserId) :
    (handleUserAction db tokenUserId userId action).1
      = ⟨400, none, some "Cannot modify your own account status"⟩
    ∧ (handleUserAction db tokenUserId userId action).2.1 = db
    ∧ (handleUserAction db tokenUserId userId action).2.2 = [] := by
  cases h
  simp [handleUserAction]

/-- C10 witness: the guard fires on a concrete request whose target is
the requester, for each of the four actions. -/
theorem handleUserAction_self_guard_witness :
    ((handleUserAction [] "admin1" "admin1" "lock").1
      = ⟨400, none, some "Cannot modify your own account status"⟩
     ∧ (handleUserAction [] "admin1" "admin1" "lock").2.1 = []
     ∧ (handleUserAction [] "admin1" "admin1" "lock").2.2 = [])
    ∧ (handleUserAction [] "admin1" "admin1" "deactivate").1.status = 400 := by
  refine ⟨handleUserAction_self_guard [] "admin1" "admin1" "lock" rfl, ?_⟩
  decide

/-- C1: in the credentials authorize callback, a failed password
verification for an unlocked active user updates the stored row to
loginAttempts + 1, sets isLocked exactly when the incremented count
reaches 5 (with the counter starting at or below 4, reaching 5 and
exceeding 4 coincide), sets lockReason to the lockout message exactly in
that case, and writes the failed Invalid password audit entry; and a
call for a user whose isLocked flag is true throws the account-locked
error before any password check, leaving the database unchanged. -/
theorem authorize_account_lockout
    (compare : String → String → Bool) (tv : String → String → Nat → Bool)
    (consume : RateLimiterConfig → String → Bool) (ip : String)
    (creds : Credentials) (db : List User) (u : User)
    (he : creds.email.isEmpty = false) (hp : creds.password.isEmpty = false)
    (hrl : consume rateLimiter ip = true)
    (hfind : findUserByEmail db (lowercase creds.email) = some u) :
    (u.isLocked = true →
      (authorize compare tv consume ip creds db).result
        = AuthResult.thrown "Account is locked. Please contact support."
      ∧ (authorize compare tv consume ip creds db).db = db
      ∧ AuthEvent.passwordCheck u.id
          ∉ (authorize compare tv consume ip creds db).events)
    ∧ (u.isLocked = false → u.isActive = true → u ∈ db →
       passwordMatches compare creds.password u = false →
       ({ u with
          loginAttempts := u.loginAttempts + 1,
          isLocked := decide (u.loginAttempts + 1 ≥ 5),
          lockReason := if u.loginAttempts + 1 ≥ 5
            then some "Too many failed login attempts" else none }
         ∈ (authorize compare tv consume ip creds db).db)
       ∧ (u.loginAttempts ≤ 4 →
           (decide (u.loginAttempts + 1 ≥ 5) = true ↔
             u.loginAttempts + 1 = 5))
       ∧ AuthEvent.audit ⟨some u.id, "login", false, some "Invalid password"⟩
           ∈ (authorize compare tv consume ip creds db).events) := by
  constructor
  · intro hlock
    simp [authorize, he, hp, hrl, hfind, hlock]
  · intro hlock hact hmem hpw
    refine ⟨?_, ?_, ?_⟩
    · simp only [authorize, he, hp, hrl, hfind, hlock, hact, hpw]
      simp only [Bool.or_self, Bool.false_eq_true, if_false, Bool.not_true,
        Bool.not_false, if_true, updateUser]
      exact List.mem_map.mpr ⟨u, hmem, by simp [hact]⟩
    · intro hle
      constructor
      · intro h
        have := of_decide_eq_true h
        omega
      · intro h
        exact decide_eq_true (by omega)
    · simp only [authorize, he, hp, hrl, hfind, hlock, hact, hpw]
      simp only [Bool.or_self, Bool.false_eq_true, if_false, Bool.not_true,
        Bool.not_false, if_true]
      rw [List.mem_append]
      right
      simp

/-- C1 witness: concrete run of the failed-password and locked-account
branches.  The stored counter of the demo user is 4, so the failed
attempt locks the account; the already-locked user makes authorize
throw. -/
theorem authorize_account_lockout_witness :
    (authorize (fun _ _ => false) (fun _ _ _ => false) (fun _ _ => true)
        "1.2.3.4"
        ⟨"eve@example.com", "wrong", none⟩
        [{ id := "u1", email := "eve@example.com",
           passwordHash := some "h", loginAttempts := 4 }]).db
      = [{ id := "u1", email := "eve@example.com",
           passwordHash := some "h", loginAttempts := 5, isLocked := true,
           lockReason := some "Too many failed login attempts" }]
    ∧ (authorize (fun _ _ => false) (fun _ _ _ => false) (fun _ _ => true)
        "1.2.3.4"
        ⟨"eve@example.com", "pw", none⟩
        [{ id := "u1", email := "eve@example.com", isLocked := true }]).result
      = AuthResult.thrown "Account is locked. Please contact support." := by
  constructor
  · have h := authorize_account_lockout (fun _ _ => false)
      (fun _ _ _ => false) (fun _ _ => true) "1.2.3.4"
      ⟨"eve@example.com", "wrong", none⟩
      [{ id := "u1", email := "eve@example.com",
         passwordHash := some "h", loginAttempts := 4 }]
      { id := "u1", email := "eve@example.com",
        passwordHash := some "h", loginAttempts := 4 }
      rfl rfl rfl (by decide)
    have h2 := (h.2 rfl rfl (by decide) (by decide)).1
    revert h2
    decide
  · exact (authorize_account_lockout (fun _ _ => false)
      (fun _ _ _ => false) (fun _ _ => true) "1.2.3.4"
      ⟨"eve@example.com", "pw", none⟩
      [{ id := "u1", email := "eve@example.com", isLocked := true }]
      { id := "u1", email := "eve@example.com", isLocked := true }
      rfl rfl rfl (by decide)).1 rfl |>.1

/-- In every branch of authorize with non-empty credentials, the event
trace starts with the login rate-limiter consumption. -/
theorem authorize_events_head
    (compare : String → String → Bool) (tv : String → String → Nat → Bool)
    (consume : RateLimiterConfig → String → Bool) (ip : String)
    (creds : Credentials) (db : List User)
    (he : creds.email.isEmpty = false) (hp : creds.password.isEmpty = false) :
    (authorize compare tv consume ip creds db).events.head?
      = some (AuthEvent.rateLimitConsume rateLimiter.keyPrefix ip) := by
  unfold authorize
  simp only [he, hp, Bool.or_self, Bool.false_eq_true, if_false]
  repeat' split
  all_goals simp [List.head?]

/-- C2: for every login attempt with non-empty email and password, the
very first effect of the authorize callback is consuming the login rate
limiter (5 points per 15 minutes, 15-minute block, keyed by client IP
under the login rate-limit prefix); when consumption is rejected the
callback writes the failed Rate limit exceeded audit entry, throws the
too-many-attempts error, leaves the users table unchanged, and performs
no user read and no user write. -/
theorem authorize_rate_limit_precedes_everything
    (compare : String → String → Bool) (tv : String → String → Nat → Bool)
    (consume : RateLimiterConfig → String → Bool) (ip : String)
    (creds : Credentials) (db : List User)
    (he : creds.email.isEmpty = false) (hp : creds.password.isEmpty = false) :
    (rateLimiter.points = 5 ∧ rateLimiter.duration = 15 * 60
      ∧ rateLimiter.blockDuration = 15 * 60
      ∧ rateLimiter.keyPrefix = "login_rate_limit")
    ∧ (authorize compare tv consume ip creds db).events.head?
        = some (AuthEvent.rateLimitConsume rateLimiter.keyPrefix ip)
    ∧ (consume rateLimiter ip = false →
        (authorize compare tv consume ip creds db).result
          = AuthResult.thrown "Too many login attempts. Please try again later."
        ∧ AuthEvent.audit ⟨none, "login", false, some "Rate limit exceeded"⟩
            ∈ (authorize compare tv consume ip creds db).events
        ∧ (authorize compare tv consume ip creds db).db = db
        ∧ ∀ e ∈ (authorize compare tv consume ip creds db).events,
            (∀ s, e ≠ AuthEvent.dbSelectUser s)
            ∧ (∀ s, e ≠ AuthEvent.dbUpdateUser s)) := by
  refine ⟨⟨rfl, rfl, rfl, rfl⟩,
    authorize_events_head compare tv consume ip creds db he hp, ?_⟩
  intro hc
  simp [authorize, he, hp, hc]

/-- C2 witness: a concrete rejected attempt throws, audits, and touches
no user row. -/
theorem authorize_rate_limit_precedes_everything_witness :
    (authorize (fun _ _ => true) (fun _ _ _ => true) (fun _ _ => false)
        "9.9.9.9" ⟨"a@b.c", "pw", none⟩ []).result
      = AuthResult.thrown "Too many login attempts. Please try again later."
    ∧ (authorize (fun _ _ => true) (fun _ _ _ => true) (fun _ _ => false)
        "9.9.9.9" ⟨"a@b.c", "pw", none⟩ []).events.head?
      = some (AuthEvent.rateLimitConsume rateLimiter.keyPrefix "9.9.9.9") := by
  have h := authorize_rate_limit_precedes_everything
    (fun _ _ => true) (fun _ _ _ => true) (fun _ _ => false)
    "9.9.9.9" ⟨"a@b.c", "pw", none⟩ [] rfl rfl
  exact ⟨(h.2.2 rfl).1, h.2.1⟩

/-- C3: for a user whose mfaEnabled flag is true (after rate limiting,
lookup, lock and activity checks, and a successful password
verification), authorize returns null when the credentials carry no MFA
code; when a code is supplied, a successful result requires the code to
verify as a TOTP against the stored base32 secret with window 2, and a
non-empty code that fails verification yields the failed Invalid MFA
code audit entry and a null result. -/
theorem authorize_mfa_step
    (compare : String → String → Bool) (tv : String → String → Nat → Bool)
    (consume : RateLimiterConfig → String → Bool) (ip : String)
    (creds : Credentials) (db : List User) (u : User)
    (he : creds.email.isEmpty = false) (hp : creds.password.isEmpty = false)
    (hrl : consume rateLimiter ip = true)
    (hfind : findUserByEmail db (lowercase creds.email) = some u)
    (hlock : u.isLocked = false) (hact : u.isActive = true)
    (hpw : passwordMatches compare creds.password u = true)
    (hmfa : u.mfaEnabled = true) :
    (creds.mfaCode = none →
      (authorize compare tv consume ip creds db).result
        = AuthResult.nullResult)
    ∧ (∀ code, creds.mfaCode = some code →
        (∀ su, (authorize compare tv consume ip creds db).result
            = AuthResult.ok su →
          tv code (u.mfaSecret.getD "") 2 = true)
        ∧ (code.isEmpty = false → tv code (u.mfaSecret.getD "") 2 = false →
            (authorize compare tv consume ip creds db).result
              = AuthResult.nullResult
            ∧ AuthEvent.audit
                ⟨some u.id, "login", false, some "Invalid MFA code"⟩
                ∈ (authorize compare tv consume ip creds db).events)) := by
  constructor
  · intro hcode
    simp [authorize, he, hp, hrl, hfind, hlock, hact, hpw, hmfa, hcode]
  · intro code hcode
    constructor
    · intro su hres
      by_cases hemp : code.isEmpty = true
      · simp [authorize, he, hp, hrl, hfind, hlock, hact, hpw, hmfa, hcode,
          hemp] at hres
      · simp only [Bool.not_eq_true] at hemp
        by_cases hv : tv code (u.mfaSecret.getD "") 2 = true
        · exact hv
        · simp only [Bool.not_eq_true] at hv
          simp [authorize, he, hp, hrl, hfind, hlock, hact, hpw, hmfa,
            hcode, hemp, hv] at hres
    · intro hemp hv
      constructor
      · simp [authorize, he, hp, hrl, hfind, hlock, hact, hpw, hmfa, hcode,
          hemp, hv]
      · simp only [authorize, he, hp, hrl, hfind, hlock, hact, hpw, hmfa,
          hcode, hemp, hv]
        simp only [Bool.or_self, Bool.false_eq_true, if_false, Bool.not_true,
          Bool.not_false, if_true]
        rw [List.mem_append]
        right
        simp

/-- C3 witness: a concrete MFA-enabled user is refused without a code,
and refused with an audit entry on a wrong code. -/
theorem authorize_mfa_step_witness :
    (authorize (fun p h => p == "pw" && h == "H")
        (fun c s _ => c == "123456" && s == "SECRET") (fun _ _ => true)
        "1.1.1.1" ⟨"m@x.io", "pw", none⟩
        [{ id := "u2", email := "m@x.io", passwordHash := some "H",
           mfaEnabled := true, mfaSecret := some "SECRET" }]).result
      = AuthResult.nullResult
    ∧ (authorize (fun p h => p == "pw" && h == "H")
        (fun c s _ => c == "123456" && s == "SECRET") (fun _ _ => true)
        "1.1.1.1" ⟨"m@x.io", "pw", some "000000"⟩
        [{ id := "u2", email := "m@x.io", passwordHash := some "H",
           mfaEnabled := true, mfaSecret := some "SECRET" }]).result
      = AuthResult.nullResult := by
  constructor
  · exact (authorize_mfa_step (fun p h => p == "pw" && h == "H")
      (fun c s _ => c == "123456" && s == "SECRET") (fun _ _ => true)
      "1.1.1.1" ⟨"m@x.io", "pw", none⟩
      [{ id := "u2", email := "m@x.io", passwordHash := some "H",
         mfaEnabled := true, mfaSecret := some "SECRET" }]
      { id := "u2", email := "m@x.io", passwordHash := some "H",
        mfaEnabled := true, mfaSecret := some "SECRET" }
      rfl rfl rfl (by decide) rfl rfl (by decide) rfl).1 rfl
  · exact ((authorize_mfa_step (fun p h => p == "pw" && h == "H")
      (fun c s _ => c == "123456" && s == "SECRET") (fun _ _ => true)
      "1.1.1.1" ⟨"m@x.io", "pw", some "000000"⟩
      [{ id := "u2", email := "m@x.io", passwordHash := some "H",
         mfaEnabled := true, mfaSecret := some "SECRET" }]
      { id := "u2", email := "m@x.io", passwordHash := some "H",
        mfaEnabled := true, mfaSecret := some "SECRET" }
      rfl rfl rfl (by decide) rfl rfl (by decide) rfl).2 "000000" rfl).2
      rfl (by decide) |>.1

/-- Looking a user up after an id-preserving update finds the updated
row. -/
theorem findUserById_updateUser (db : List User) (id : String)
    (f : User → User) (hf : ∀ u, (f u).id = u.id) :
    findUserById (updateUser db id f) id = (findUserById db id).map f := by
  induction db with
  | nil => rfl
  | cons a t ih =>
    cases h : a.id == id with
    | true =>
      simp only [updateUser, List.map_cons, h, if_true, findUserById,
        List.find?_cons, hf]
      rfl
    | false =>
      simp only [updateUser, List.map_cons, h, Bool.false_eq_true, if_false,
        findUserById, List.find?_cons] at *
      exact ih

/-- Splicing out the element at the index found by indexOf removes the
first occurrence. -/
theorem eraseIdx_indexOf? (l : List String) (a : String) :
    ∀ i, l.indexOf? a = some i → l.eraseIdx i = l.erase a := by
  induction l with
  | nil => intro i h; simp [List.indexOf?_nil] at h
  | cons b t ih =>
    intro i h
    rw [List.indexOf?_cons] at h
    by_cases hb : (b == a) = true
    · rw [if_pos hb] at h
      cases h
      rw [List.eraseIdx_cons_zero, List.erase_cons, if_pos hb]
    · rw [if_neg hb] at h
      cases hi : t.indexOf? a with
      | none => rw [hi] at h; simp at h
      | some j =>
        rw [hi] at h
        simp only [Option.map_some', Option.some.injEq] at h
        cases h
        rw [List.eraseIdx_cons_succ, List.erase_cons, if_neg hb, ih j hi]

/-- A member always has an index. -/
theorem indexOf?_of_mem (l : List String) (a : String) (h : a ∈ l) :
    ∃ i, l.indexOf? a = some i := by
  cases hio : l.indexOf? a with
  | none =>
    exact absurd (beq_self_eq_true a)
      (by simpa using List.indexOf?_eq_none_iff.mp hio a h)
  | some i => exact ⟨i, rfl⟩

/-- C8: a successful verifyBackupCode call stores exactly the backup
code array with the first occurrence of the supplied code removed (the
count of that code drops by one, every other code keeps its count), so
when the code was stored at most once a second call with the same code
fails and changes nothing; and every unsuccessful call (user missing,
MFA not enabled, no stored codes, or code not present) returns success
false and leaves the users table unchanged. -/
theorem verifyBackupCode_single_use (db : List User) (userId code : String) :
    (∀ u codes, findUserById db userId = some u → u.mfaEnabled = true →
      u.mfaBackupCodes = some codes → code ∈ codes →
      (verifyBackupCode db userId code).1 = ⟨true, none⟩
      ∧ (verifyBackupCode db userId code).2.1
          = updateUser db userId (fun w =>
              { w with mfaBackupCodes := some (codes.erase code) })
      ∧ (codes.erase code).count code = codes.count code - 1
      ∧ (∀ c, c ≠ code → (codes.erase code).count c = codes.count c)
      ∧ (codes.count code ≤ 1 →
          (verifyBackupCode (verifyBackupCode db userId code).2.1
              userId code).1.success = false
          ∧ (verifyBackupCode (verifyBackupCode db userId code).2.1
              userId code).2.1
            = (verifyBackupCode db userId code).2.1))
    ∧ ((verifyBackupCode db userId code).1.success = false →
        (verifyBackupCode db userId code).2.1 = db) := by
  constructor
  · intro u codes hfind hen hcodes hmem
    obtain ⟨i, hio⟩ := indexOf?_of_mem codes code hmem
    have herase := eraseIdx_indexOf? codes code i hio
    have hrun : verifyBackupCode db userId code
        = (⟨true, none⟩,
           updateUser db userId (fun w =>
             { w with mfaBackupCodes := some (codes.erase code) }),
           [MFAEvent.dbSelectUser userId, MFAEvent.dbUpdateUser userId,
            MFAEvent.audit ⟨some userId, "login", true, none⟩]) := by
      simp [verifyBackupCode, hfind, hen, hcodes, hio, herase]
    refine ⟨by rw [hrun], by rw [hrun],
      List.count_erase_self code codes, ?_, ?_⟩
    · intro c hc
      exact List.count_erase_of_ne hc codes
    · intro hcount
      have hnotmem : code ∉ codes.erase code := by
        rw [← List.count_eq_zero, List.count_erase_self]
        omega
      have hio2 : (codes.erase code).indexOf? code = none := by
        rw [List.indexOf?_eq_none_iff]
        intro x hx hbeq
        exact hnotmem (by rwa [eq_of_beq hbeq] at hx)
      have hdb2 : (verifyBackupCode db userId code).2.1
          = updateUser db userId (fun w =>
              { w with mfaBackupCodes := some (codes.erase code) }) := by
        rw [hrun]
      have hfind2 : findUserById (verifyBackupCode db userId code).2.1 userId
          = some { u with mfaBackupCodes := some (codes.erase code) } := by
        rw [hdb2, findUserById_updateUser db userId
            (fun w => { w with mfaBackupCodes := some (codes.erase code) })
            (fun w => rfl), hfind]
        rfl
      constructor
      · rw [hdb2] at hfind2 ⊢
        simp [verifyBackupCode, hfind2, hen, hio2]
      · rw [hdb2] at hfind2 ⊢
        simp [verifyBackupCode, hfind2, hen, hio2]
  · cases hfind : findUserById db userId with
    | none => simp [verifyBackupCode, hfind]
    | some u =>
      cases hen : u.mfaEnabled with
      | false => simp [verifyBackupCode, hfind, hen]
      | true =>
        cases hbc : u.mfaBackupCodes with
        | none => simp [verifyBackupCode, hfind, hen, hbc]
        | some codes =>
          cases hio : codes.indexOf? code with
          | none => simp [verifyBackupCode, hfind, hen, hbc, hio]
          | some i => simp [verifyBackupCode, hfind, hen, hbc, hio]

/-- C8 witness: with stored codes A and B, the code A verifies once,
shrinks the stored array to B, and fails the second time. -/
theorem verifyBackupCode_single_use_witness :
    (verifyBackupCode
        [{ id := "u3", email := "b@x.io", mfaEnabled := true,
           mfaBackupCodes := some ["A", "B"] }] "u3" "A").1
      = ⟨true, none⟩
    ∧ (verifyBackupCode (verifyBackupCode
        [{ id := "u3", email := "b@x.io", mfaEnabled := true,
           mfaBackupCodes := some ["A", "B"] }] "u3" "A").2.1
        "u3" "A").1.success = false := by
  have h := (verifyBackupCode_single_use
    [{ id := "u3", email := "b@x.io", mfaEnabled := true,
       mfaBackupCodes := some ["A", "B"] }] "u3" "A").1
    { id := "u3", email := "b@x.io", mfaEnabled := true,
      mfaBackupCodes := some ["A", "B"] }
    ["A", "B"] (by decide) rfl rfl (by decide)
  exact ⟨h.1, (h.2.2.2.2 (by decide)).1⟩

/-- C9: disableMFA leaves the user row untouched and reports success
false with an error message whenever the user is missing, MFA is not
enabled, no secret is stored, or the token fails verification (window
2); on a verified token it clears mfaEnabled, mfaSecret and
mfaBackupCodes together, and the trace carries exactly one user-row
update. -/
theorem disableMFA_atomic_guarded (vt : String → String → Nat → Bool)
    (db : List User) (userId token : String) :
    ((disableMFA vt db userId token).1.success = false →
      (disableMFA vt db userId token).2.1 = db
      ∧ (disableMFA vt db userId token).1.error ≠ none
      ∧ ∀ i, MFAEvent.dbUpdateUser i ∉ (disableMFA vt db userId token).2.2)
    ∧ (findUserById db userId = none →
        (disableMFA vt db userId token).1
          = ⟨false, some "MFA is not enabled for this user"⟩)
    ∧ (∀ u, findUserById db userId = some u → u.mfaEnabled = false →
        (disableMFA vt db userId token).1
          = ⟨false, some "MFA is not enabled for this user"⟩)
    ∧ (∀ u, findUserById db userId = some u → u.mfaEnabled = true →
        u.mfaSecret = none →
        (disableMFA vt db userId token).1
          = ⟨false, some "MFA is not enabled for this user"⟩)
    ∧ (∀ u s, findUserById db userId = some u → u.mfaEnabled = true →
        u.mfaSecret = some s → vt token s 2 = false →
        (disableMFA vt db userId token).1 = ⟨false, some "Invalid MFA token"⟩)
    ∧ (∀ u s, findUserById db userId = some u → u.mfaEnabled = true →
        u.mfaSecret = some s → vt token s 2 = true →
        (disableMFA vt db userId token).1 = ⟨true, none⟩
        ∧ (disableMFA vt db userId token).2.1
            = updateUser db userId (fun w =>
                { w with mfaEnabled := false, mfaSecret := none,
                         mfaBackupCodes := none })
        ∧ (disableMFA vt db userId token).2.2.filter (fun e =>
              match e with
              | MFAEvent.dbUpdateUser _ => true
              | _ => false)
            = [MFAEvent.dbUpdateUser userId]) := by
  refine ⟨?_, ?_, ?_, ?_, ?_, ?_⟩
  · cases hfind : findUserById db userId with
    | none => simp [disableMFA, hfind]
    | some u =>
      cases hen : u.mfaEnabled with
      | false => simp [disableMFA, hfind, hen]
      | true =>
        cases hs : u.mfaSecret with
        | none => simp [disableMFA, hfind, hen, hs]
        | some s =>
          cases hv : vt token s 2 with
          | false => simp [disableMFA, hfind, hen, hs, hv]
          | true => simp [disableMFA, hfind, hen, hs, hv]
  · intro hfind
    simp [disableMFA, hfind]
  · intro u hfind hen
    simp [disableMFA, hfind, hen]
  · intro u hfind hen hs
    simp [disableMFA, hfind, hen, hs]
  · intro u s hfind hen hs hv
    simp [disableMFA, hfind, hen, hs, hv]
  · intro u s hfind hen hs hv
    refine ⟨?_, ?_, ?_⟩ <;> simp [disableMFA, hfind, hen, hs, hv]

/-- C9 witness: concrete runs of the invalid-token refusal and of the
verified disable clearing all three MFA fields in one update. -/
theorem disableMFA_atomic_guarded_witness :
    (disableMFA (fun t s _ => t == "123456" && s == "S")
        [{ id := "u4", email := "d@x.io", mfaEnabled := true,
           mfaSecret := some "S", mfaBackupCodes := some ["A"] }]
        "u4" "000000").1
      = ⟨false, some "Invalid MFA token"⟩
    ∧ (disableMFA (fun t s _ => t == "123456" && s == "S")
        [{ id := "u4", email := "d@x.io", mfaEnabled := true,
           mfaSecret := some "S", mfaBackupCodes := some ["A"] }]
        "u4" "123456").2.1
      = [{ id := "u4", email := "d@x.io", mfaEnabled := false,
           mfaSecret := none, mfaBackupCodes := none }] := by
  constructor
  · exact (disableMFA_atomic_guarded (fun t s _ => t == "123456" && s == "S")
      [{ id := "u4", email := "d@x.io", mfaEnabled := true,
         mfaSecret := some "S", mfaBackupCodes := some ["A"] }]
      "u4" "000000").2.2.2.2.1
      { id := "u4", email := "d@x.io", mfaEnabled := true,
        mfaSecret := some "S", mfaBackupCodes := some ["A"] }
      "S" (by decide) rfl rfl (by decide)
  · have h := ((disableMFA_atomic_guarded
      (fun t s _ => t == "123456" && s == "S")
      [{ id := "u4", email := "d@x.io", mfaEnabled := true,
         mfaSecret := some "S", mfaBackupCodes := some ["A"] }]
      "u4" "123456").2.2.2.2.2
      { id := "u4", email := "d@x.io", mfaEnabled := true,
        mfaSecret := some "S", mfaBackupCodes := some ["A"] }
      "S" (by decide) rfl rfl (by decide)).2.1
    revert h
    decide

end LogAI
